import Mathlib

/-!
Shallow embedding of the workflow state machine in
`app/core/langgraph_agent.py` (with the supported-language table from
`app/core/constants.py`).

The Python module defines a `TranslationState` TypedDict, three stage
functions (`content_safety_check_node`, `translate_text_node`,
`text_to_speech_node`), two conditional-edge functions
(`should_translate`, `should_synthesize_speech`) and a linear graph
safety → translate → text-to-speech → END.

Embedding conventions:
  * Python `None` is `Option.none`; a TypedDict key that may be absent or
    `None` is an `Option`.
  * A node returns a partial state update (a Python dict with a subset of
    the state keys).  `StateUpdate` models such a dict: each field is
    `Option (Option _)`, where the outer `none` means "key absent from the
    returned dict" and `some v` means "key present with value v".
  * Python truthiness of strings/options is modelled by `truthyOptStr`,
    `truthyStr`, `truthyOptBool`.
  * External providers (content-safety client, OpenAI chat stream, speech
    synthesizer) are opaque: each node takes an environment record that
    fixes what every provider call would do, including raising an
    exception (`Except.error`).  The node's result also carries the list
    of provider calls it actually made, so "no provider call" is provable.
  * Bytes are `List Nat`.
-/

namespace LangApp

/-- Python truthiness of an optional string value: `None` and `""` are falsy. -/
def truthyOptStr : Option String → Bool
  | none => false
  | some s => decide (s ≠ "")

/-- Python truthiness of a plain string: `""` is falsy. -/
def truthyStr (s : String) : Bool :=
  decide (s ≠ "")

/-- Python truthiness of an optional boolean value: only `True` is truthy. -/
def truthyOptBool : Option Bool → Bool
  | none => false
  | some b => b

/-- `class TranslationState(TypedDict)` of langgraph_agent.py lines 18-24.
`original_text` and `target_language` are required plain strings; the other
fields may be absent/None. -/
structure TranslationState where
  original_text : String
  target_language : String
  translated_text : Option String
  audio_bytes : Option (List Nat)
  error_message : Option String
  is_safe : Option Bool
  deriving DecidableEq, Repr

/-- A partial state update returned (or yielded) by a node: a dict with a
subset of the `TranslationState` keys.  Outer `none` = key absent. -/
structure StateUpdate where
  translated_text : Option (Option String)
  audio_bytes : Option (Option (List Nat))
  error_message : Option (Option String)
  is_safe : Option (Option Bool)
  deriving DecidableEq, Repr

/-- The update carrying no keys at all. -/
def StateUpdate.empty : StateUpdate :=
  { translated_text := none, audio_bytes := none, error_message := none, is_safe := none }

/-- The runner merges a node's partial update into the accumulated state:
every key present in the update overwrites the state's value for that key
(LangGraph's default channel merge, and spec section 4.5's "partial update
merged into it"). -/
def applyUpdate (s : TranslationState) (u : StateUpdate) : TranslationState :=
  { original_text := s.original_text
    target_language := s.target_language
    translated_text := u.translated_text.getD s.translated_text
    audio_bytes := u.audio_bytes.getD s.audio_bytes
    error_message := u.error_message.getD s.error_message
    is_safe := u.is_safe.getD s.is_safe }

/-- Result type of the two conditional-edge functions:
`Literal["translate_text", "__end__"]` resp.
`Literal["text_to_speech", "__end__"]`. -/
inductive NextStep where
  | translate_text
  | text_to_speech
  | stop
  deriving DecidableEq, Repr

/-- `should_translate` (langgraph_agent.py lines 212-218):
`if state.get("is_safe") and not state.get("error_message")`. -/
def should_translate (s : TranslationState) : NextStep :=
  if truthyOptBool s.is_safe && !(truthyOptStr s.error_message) then
    NextStep.translate_text
  else
    NextStep.stop

/-- `should_synthesize_speech` (langgraph_agent.py lines 220-226):
`if state.get("translated_text") and not state.get("error_message")`. -/
def should_synthesize_speech (s : TranslationState) : NextStep :=
  if truthyOptStr s.translated_text && !(truthyOptStr s.error_message) then
    NextStep.text_to_speech
  else
    NextStep.stop

/-- The nodes of the compiled graph (langgraph_agent.py lines 229-255),
plus the END sentinel. -/
inductive GraphNode where
  | content_safety_check
  | translate_text
  | text_to_speech
  | graphEnd
  deriving DecidableEq, Repr

/-- The graph's transition function: the conditional edges registered at
lines 236-251 and the unconditional edge text_to_speech → END at line 252. -/
def nextNode : GraphNode → TranslationState → GraphNode
  | GraphNode.content_safety_check, s =>
    match should_translate s with
    | NextStep.translate_text => GraphNode.translate_text
    | _ => GraphNode.graphEnd
  | GraphNode.translate_text, s =>
    match should_synthesize_speech s with
    | NextStep.text_to_speech => GraphNode.text_to_speech
    | _ => GraphNode.graphEnd
  | GraphNode.text_to_speech, _ => GraphNode.graphEnd
  | GraphNode.graphEnd, _ => GraphNode.graphEnd

/-! ### Safety stage (`content_safety_check_node`, lines 27-88) -/

/-- One entry of the moderation result's category list (or one of the
direct `hate`/`self_harm`/`sexual`/`violence` attributes).  The Python
code reads `category` and `severity` defensively (dict lookup with
default, or `hasattr`/`getattr` with default), so both are optional. -/
structure CategoryAnalysis where
  category : Option String
  severity : Option Int
  deriving DecidableEq, Repr

/-- The moderation provider's analysis result as the Python code inspects
it: an optional `categories_analysis` list (outer `none` models the
attribute being absent or `None`) and the four optional direct category
attributes. -/
structure AnalysisResult where
  categories_analysis : Option (List CategoryAnalysis)
  hate : Option CategoryAnalysis
  self_harm : Option CategoryAnalysis
  sexual : Option CategoryAnalysis
  violence : Option CategoryAnalysis
  deriving DecidableEq, Repr

/-- The per-category test of the loop at lines 60-69: whether it is a dict
(`category.get('severity', 0) > 0`) or an object
(`hasattr(category, 'severity') and getattr(category, 'severity', 0) > 0`),
the category counts as unsafe exactly when its severity, defaulting to 0,
is strictly positive. -/
def categoryUnsafe (c : CategoryAnalysis) : Bool :=
  decide (0 < c.severity.getD 0)

/-- The `elif any(...)` direct-attribute check of lines 72-75: some
direct category attribute exists, is truthy, has a `severity` attribute,
and that severity is strictly positive. -/
def directUnsafe (r : AnalysisResult) : Bool :=
  [r.hate, r.self_harm, r.sexual, r.violence].any fun o =>
    match o with
    | some c => c.severity.isSome && categoryUnsafe c
    | none => false

/-- The `unsafe` flag computed at lines 55-77: approach 1 uses
`categories_analysis` when that attribute is present and truthy
(a non-empty list); otherwise approach 2 checks the direct attributes. -/
def analysisUnsafe (r : AnalysisResult) : Bool :=
  match r.categories_analysis with
  | some cats => if cats.isEmpty then directUnsafe r else cats.any categoryUnsafe
  | none => directUnsafe r

/-- Provider calls the safety node can make. -/
inductive SafetyCall where
  | initClient
  | analyze
  deriving DecidableEq, Repr

/-- Environment for the safety node: what `get_content_safety_client()`
and `analyze_text(...)` would do (`Except.error` = the call raises). -/
structure SafetyEnv where
  clientInit : Except String Unit
  analyzeResult : Except String AnalysisResult
  deriving Repr

/-- The update `{"is_safe": True, "error_message": None}` (lines 44, 52,
84, 88). -/
def safeUpd : StateUpdate :=
  { translated_text := none, audio_bytes := none,
    error_message := some none, is_safe := some (some true) }

/-- The update of line 81:
`{"error_message": "Input text was found to be unsafe.", "is_safe": False}`. -/
def unsafeUpd : StateUpdate :=
  { translated_text := none, audio_bytes := none,
    error_message := some (some "Input text was found to be unsafe."),
    is_safe := some (some false) }

/-- The update of line 35: `{"error_message": "Input text is missing for
content safety check.", "is_safe": False}`. -/
def missingInputUpd : StateUpdate :=
  { translated_text := none, audio_bytes := none,
    error_message := some (some "Input text is missing for content safety check."),
    is_safe := some (some false) }

/-- `content_safety_check_node` (lines 27-88).  Returns the partial state
update together with the provider calls made.  Client-initialization
failure and analysis failure both fail open (lines 40-44 and 49-52); the
outer `except` at lines 85-88 also fails open, but in this total embedding
no other expression can raise, so it has no separate branch. -/
def content_safety_check_node (s : TranslationState) (env : SafetyEnv) :
    StateUpdate × List SafetyCall :=
  if s.original_text = "" then
    (missingInputUpd, [])
  else
    match env.clientInit with
    | Except.error _ => (safeUpd, [SafetyCall.initClient])
    | Except.ok _ =>
      match env.analyzeResult with
      | Except.error _ => (safeUpd, [SafetyCall.initClient, SafetyCall.analyze])
      | Except.ok r =>
        if analysisUnsafe r then
          (unsafeUpd, [SafetyCall.initClient, SafetyCall.analyze])
        else
          (safeUpd, [SafetyCall.initClient, SafetyCall.analyze])

/-! ### Translation stage (`translate_text_node`, lines 90-145)

The node is a generator: it yields a partial update after every non-empty
stream fragment and finally returns one closing update.  The provider
stream is a finite list of chunks (each chunk's `delta.content`, with
`none` standing for a chunk whose `choices`/`delta`/`content` is missing
or `None`), followed by either normal exhaustion or an exception raised
while pulling the next chunk. -/

/-- How the provider stream ends after its chunks are consumed. -/
inductive StreamEnd where
  | completed
  | raised (msg : String)
  deriving DecidableEq, Repr

/-- Environment for the translation node: what `get_azure_openai_client()`
would do, the fragments the stream delivers, and how the stream ends. -/
structure TranslateEnv where
  clientInit : Except String Unit
  chunks : List (Option String)
  streamEnd : StreamEnd
  deriving Repr

/-- The guard of line 132
(`if chunk.choices and chunk.choices[0].delta and chunk.choices[0].delta.content`):
a chunk contributes its content exactly when that content is present and
non-empty (Python truthiness). -/
def contentPiece : Option String → Option String
  | none => none
  | some s => if s = "" then none else some s

/-- The update `{"translated_text": accumulated_translation}` yielded at
line 136. -/
def translatedUpd (t : String) : StateUpdate :=
  { translated_text := some (some t), audio_bytes := none,
    error_message := none, is_safe := none }

/-- The closing update of line 140:
`{"translated_text": accumulated_translation, "error_message": None}`. -/
def translateDoneUpd (t : String) : StateUpdate :=
  { translated_text := some (some t), audio_bytes := none,
    error_message := some none, is_safe := none }

/-- An error update of the translation node (lines 100, 109, 145):
`{"error_message": msg, "translated_text": t}`. -/
def translateErrUpd (msg t : String) : StateUpdate :=
  { translated_text := some (some t), audio_bytes := none,
    error_message := some (some msg), is_safe := none }

/-- The loop of lines 130-136, collecting the yielded partial updates:
starting from accumulator `acc`, each contributing chunk appends its
content and yields the cumulative text. -/
def streamYields : List (Option String) → String → List StateUpdate
  | [], _ => []
  | c :: cs, acc =>
    match contentPiece c with
    | none => streamYields cs acc
    | some p => translatedUpd (acc ++ p) :: streamYields cs (acc ++ p)

/-- The final value of `accumulated_translation` after the loop of lines
130-136. -/
def streamAccum : List (Option String) → String → String
  | [], acc => acc
  | c :: cs, acc =>
    match contentPiece c with
    | none => streamAccum cs acc
    | some p => streamAccum cs (acc ++ p)

/-- `translate_text_node` (lines 90-145): the list of yielded partial
updates paired with the returned closing update.  On an exception raised
mid-stream the closing update keeps the yields already emitted but sets
`translated_text` to the ENTRY state's value
(`state.get("translated_text", "")`, line 145), not the accumulated text. -/
def translate_text_node (s : TranslationState) (env : TranslateEnv) :
    List StateUpdate × StateUpdate :=
  if s.original_text = "" ∨ s.target_language = "" then
    ([], translateErrUpd "Original text or target language is missing for translation." "")
  else
    match env.clientInit with
    | Except.error e =>
      ([], translateErrUpd ("Azure OpenAI client initialization failed: " ++ e) "")
    | Except.ok _ =>
      match env.streamEnd with
      | StreamEnd.completed =>
        (streamYields env.chunks "", translateDoneUpd (streamAccum env.chunks ""))
      | StreamEnd.raised msg =>
        (streamYields env.chunks "",
          translateErrUpd ("Translation failed: " ++ msg) (s.translated_text.getD ""))

/-- Specification-side cumulative texts: the running concatenations a
monotone stream of fragments should produce, starting from `acc`. -/
def prefixStrings : List String → String → List String
  | [], _ => []
  | f :: fs, acc => (acc ++ f) :: prefixStrings fs (acc ++ f)

/-- Specification-side in-order concatenation of all fragments. -/
def concatFrags : List String → String
  | [] => ""
  | f :: fs => f ++ concatFrags fs

/-! ### Speech synthesis stage (`text_to_speech_node`, lines 147-209)
with the supported-language table of `app/core/constants.py`. -/

/-- One row of `SUPPORTED_LANGUAGES_VOICES`: language display name,
locale code, voice identifier. -/
structure LanguageVoice where
  language : String
  code : String
  voice : String
  deriving DecidableEq, Repr

/-- `SUPPORTED_LANGUAGES_VOICES` (constants.py lines 4-10). -/
def SUPPORTED_LANGUAGES_VOICES : List LanguageVoice :=
  [⟨"Spanish", "es-ES", "es-ES-AlvaroNeural"⟩,
   ⟨"French", "fr-FR", "fr-FR-HenriNeural"⟩,
   ⟨"Italian", "it-IT", "it-IT-DiegoNeural"⟩,
   ⟨"German", "de-DE", "de-DE-ConradNeural"⟩,
   ⟨"Japanese", "ja-JP", "ja-JP-KeitaNeural"⟩]

/-- `target_language_name in SUPPORTED_LANGUAGES_VOICES` (line 162). -/
def isSupportedLanguage (lang : String) : Bool :=
  SUPPORTED_LANGUAGES_VOICES.any fun lv => lv.language == lang

/-- `SUPPORTED_LANGUAGES_VOICES[target_language_name]["voice"]`
(line 180); empty string when the language is missing (unreachable after
the membership check). -/
def voiceFor (lang : String) : String :=
  match SUPPORTED_LANGUAGES_VOICES.find? (fun lv => lv.language == lang) with
  | some lv => lv.voice
  | none => ""

/-- `CancellationReason` of the speech SDK: `Error` or any other member
(carried as the text its `str()` would print). -/
inductive CancellationReasonM where
  | cancellationError
  | cancellationOther (tag : String)
  deriving DecidableEq, Repr

/-- The text `str(cancellation_details.reason)` interpolates. -/
def cancellationReasonText : CancellationReasonM → String
  | CancellationReasonM.cancellationError => "CancellationReason.Error"
  | CancellationReasonM.cancellationOther tag => tag

/-- `tts_result.cancellation_details`. -/
structure CancellationDetailsM where
  reason : CancellationReasonM
  error_details : String
  deriving DecidableEq, Repr

/-- `ResultReason` of the speech SDK: the two members the code names,
plus any other member (carried as the text its `str()` would print). -/
inductive ResultReasonM where
  | synthesizingAudioCompleted
  | canceled
  | otherReason (tag : String)
  deriving DecidableEq, Repr

/-- The text `str(tts_result.reason)` interpolates. -/
def resultReasonText : ResultReasonM → String
  | ResultReasonM.synthesizingAudioCompleted => "ResultReason.SynthesizingAudioCompleted"
  | ResultReasonM.canceled => "ResultReason.Canceled"
  | ResultReasonM.otherReason tag => tag

/-- The provider's synthesis result (`speak_text_async(...).get()`). -/
structure SpeechResultM where
  reason : ResultReasonM
  audio_data : List Nat
  cancellation_details : CancellationDetailsM
  deriving DecidableEq, Repr

/-- Provider interactions of the synthesis node that reach the speech
service: obtaining the speech config and the blocking synthesis call
(with the voice resolved from the table and the text spoken). -/
inductive SpeechCall where
  | getSpeechConfig
  | speak (voice : String) (text : String)
  deriving DecidableEq, Repr

/-- Environment for the synthesis node: whether `get_speech_config()`
raises, whether it returns a truthy config, whether
`get_speech_synthesizer(...)` returns a truthy synthesizer, and what the
synthesis call produces (`Except.error` = it raises). -/
structure SpeechEnv where
  speechConfig : Except String Unit
  speechConfigAvailable : Bool
  synthesizerAvailable : Bool
  speakResult : Except String SpeechResultM
  deriving Repr

/-- An error update of the synthesis node that carries only
`error_message` (lines 156, 159, 165, 173, 177, 186). -/
def ttsErrUpd (msg : String) : StateUpdate :=
  { translated_text := none, audio_bytes := none,
    error_message := some (some msg), is_safe := none }

/-- An error update of the synthesis node that also clears audio:
`{"error_message": msg, "audio_bytes": None}` (lines 200, 205, 209). -/
def ttsErrAudioUpd (msg : String) : StateUpdate :=
  { translated_text := none, audio_bytes := some none,
    error_message := some (some msg), is_safe := none }

/-- The success update of line 193:
`{"audio_bytes": tts_result.audio_data, "error_message": None}`. -/
def ttsDoneUpd (audio : List Nat) : StateUpdate :=
  { translated_text := none, audio_bytes := some (some audio),
    error_message := some none, is_safe := none }

/-- A single apostrophe character, used inside the unsupported-language
message. -/
def apostrophe : String := String.singleton (Char.ofNat 39)

/-- `f"Language '{target_language_name}' not supported for TTS."`
(line 165). -/
def unsupportedLanguageMsg (lang : String) : String :=
  "Language " ++ apostrophe ++ lang ++ apostrophe ++ " not supported for TTS."

/-- The cancellation message of lines 196-198: the base description, with
the provider's error detail appended when the cancellation reason is
`CancellationReason.Error`. -/
def canceledMsg (d : CancellationDetailsM) : String :=
  match d.reason with
  | CancellationReasonM.cancellationError =>
    "Speech synthesis canceled: " ++ cancellationReasonText d.reason ++
      " - Error details: " ++ d.error_details
  | CancellationReasonM.cancellationOther _ =>
    "Speech synthesis canceled: " ++ cancellationReasonText d.reason

/-- `text_to_speech_node` (lines 147-209): the returned partial update
paired with the speech-provider calls made. -/
def text_to_speech_node (s : TranslationState) (env : SpeechEnv) :
    StateUpdate × List SpeechCall :=
  if !(truthyOptStr s.translated_text) then
    (ttsErrUpd "Translated text is missing for speech synthesis.", [])
  else if s.target_language = "" then
    (ttsErrUpd "Target language is missing for speech synthesis.", [])
  else if !(isSupportedLanguage s.target_language) then
    (ttsErrUpd (unsupportedLanguageMsg s.target_language), [])
  else
    match env.speechConfig with
    | Except.error e =>
      (ttsErrUpd ("Speech config error: " ++ e), [SpeechCall.getSpeechConfig])
    | Except.ok _ =>
      if !env.speechConfigAvailable then
        (ttsErrUpd "Speech config not available for TTS.", [SpeechCall.getSpeechConfig])
      else if !env.synthesizerAvailable then
        (ttsErrUpd "Speech synthesizer not available.", [SpeechCall.getSpeechConfig])
      else
        match env.speakResult with
        | Except.error e =>
          (ttsErrAudioUpd ("Text-to-speech failed: " ++ e),
            [SpeechCall.getSpeechConfig,
              SpeechCall.speak (voiceFor s.target_language) (s.translated_text.getD "")])
        | Except.ok r =>
          match r.reason with
          | ResultReasonM.synthesizingAudioCompleted =>
            (ttsDoneUpd r.audio_data,
              [SpeechCall.getSpeechConfig,
                SpeechCall.speak (voiceFor s.target_language) (s.translated_text.getD "")])
          | ResultReasonM.canceled =>
            (ttsErrAudioUpd (canceledMsg r.cancellation_details),
              [SpeechCall.getSpeechConfig,
                SpeechCall.speak (voiceFor s.target_language) (s.translated_text.getD "")])
          | ResultReasonM.otherReason tag =>
            (ttsErrAudioUpd ("Speech synthesis failed with unexpected reason: " ++ tag),
              [SpeechCall.getSpeechConfig,
                SpeechCall.speak (voiceFor s.target_language) (s.translated_text.getD "")])

/-- Truthiness characterization: an optional string is truthy iff it holds
a non-empty string. -/
theorem truthyOptStr_true_iff (o : Option String) :
    truthyOptStr o = true ↔ ∃ t, o = some t ∧ t ≠ "" := by
  cases o <;> simp [truthyOptStr]

/-- Truthiness characterization: an optional string is falsy iff it is
absent or the empty string. -/
theorem truthyOptStr_false_iff (o : Option String) :
    truthyOptStr o = false ↔ (o = none ∨ o = some "") := by
  cases o <;> simp [truthyOptStr]

/-- Truthiness characterization: an optional boolean is truthy iff it is
literally `True`. -/
theorem truthyOptBool_true_iff (o : Option Bool) :
    truthyOptBool o = true ↔ o = some true := by
  cases o with
  | none => simp [truthyOptBool]
  | some b => cases b <;> simp [truthyOptBool]

/-- `should_translate` returns "translate_text" iff is_safe is `True` and
error_message is absent or empty. -/
theorem should_translate_char (s : TranslationState) :
    should_translate s = NextStep.translate_text ↔
      (s.is_safe = some true ∧ (s.error_message = none ∨ s.error_message = some "")) := by
  unfold should_translate
  rw [← truthyOptBool_true_iff, ← truthyOptStr_false_iff]
  by_cases h1 : truthyOptBool s.is_safe = true <;>
    by_cases h2 : truthyOptStr s.error_message = false <;>
      simp_all

/-- `should_synthesize_speech` returns "text_to_speech" iff translated_text
is a non-empty string and error_message is absent or empty. -/
theorem should_synthesize_speech_char (s : TranslationState) :
    should_synthesize_speech s = NextStep.text_to_speech ↔
      ((∃ t, s.translated_text = some t ∧ t ≠ "") ∧
        (s.error_message = none ∨ s.error_message = some "")) := by
  unfold should_synthesize_speech
  rw [← truthyOptStr_true_iff, ← truthyOptStr_false_iff]
  by_cases h1 : truthyOptStr s.translated_text = true <;>
    by_cases h2 : truthyOptStr s.error_message = false <;>
      simp_all

end LangApp

namespace LangApp

/-- C1: After the safety stage the workflow proceeds to the translation
stage iff is_safe is true and error_message is empty (absent or the empty
string), otherwise it ends; after the translation stage it proceeds to
synthesis iff translated_text is non-empty and error_message is empty,
otherwise it ends; after synthesis the workflow always ends.  Stated for
every TranslationState. -/
theorem C1_transition_rules (s : TranslationState) :
    (nextNode GraphNode.content_safety_check s = GraphNode.translate_text ↔
      (s.is_safe = some true ∧ (s.error_message = none ∨ s.error_message = some ""))) ∧
    (nextNode GraphNode.content_safety_check s = GraphNode.translate_text ∨
      nextNode GraphNode.content_safety_check s = GraphNode.graphEnd) ∧
    (nextNode GraphNode.translate_text s = GraphNode.text_to_speech ↔
      ((∃ t, s.translated_text = some t ∧ t ≠ "") ∧
        (s.error_message = none ∨ s.error_message = some ""))) ∧
    (nextNode GraphNode.translate_text s = GraphNode.text_to_speech ∨
      nextNode GraphNode.translate_text s = GraphNode.graphEnd) ∧
    nextNode GraphNode.text_to_speech s = GraphNode.graphEnd := by
  refine ⟨?_, ?_, ?_, ?_, rfl⟩
  · rw [← should_translate_char]
    simp only [nextNode]
    cases should_translate s <;> simp
  · simp only [nextNode]
    cases should_translate s <;> simp
  · rw [← should_synthesize_speech_char]
    simp only [nextNode]
    cases should_synthesize_speech s <;> simp
  · simp only [nextNode]
    cases should_synthesize_speech s <;> simp

/-- C2: Fail-open policy: for every input with non-empty original_text,
if the moderation client initialization or the analysis call raises, the
safety stage returns is_safe=true with error_message unset, and the run
then proceeds to the translation stage rather than ending at the safety
gate. -/
theorem C2_fail_open (s : TranslationState) (env : SafetyEnv)
    (hne : s.original_text ≠ "")
    (herr : (∃ e, env.clientInit = Except.error e) ∨
      (∃ e, env.analyzeResult = Except.error e)) :
    (content_safety_check_node s env).1 = safeUpd ∧
    (applyUpdate s (content_safety_check_node s env).1).is_safe = some true ∧
    (applyUpdate s (content_safety_check_node s env).1).error_message = none ∧
    nextNode GraphNode.content_safety_check
      (applyUpdate s (content_safety_check_node s env).1) = GraphNode.translate_text := by
  have h1 : (content_safety_check_node s env).1 = safeUpd := by
    unfold content_safety_check_node
    cases hc : env.clientInit with
    | error e => simp [hne, hc]
    | ok u =>
      rcases herr with ⟨e, he⟩ | ⟨e, he⟩
      · rw [hc] at he
        cases he
      · simp [hne, hc, he]
  rw [h1]
  refine ⟨rfl, rfl, rfl, ?_⟩
  simp [nextNode, should_translate, applyUpdate, safeUpd, truthyOptBool, truthyOptStr]

/-- Witness for C2 at a concrete input: non-empty text, client
initialization raising. -/
theorem C2_fail_open_witness :
    (content_safety_check_node
        ⟨"Hello", "French", none, none, none, none⟩
        ⟨Except.error "network down", Except.ok ⟨none, none, none, none, none⟩⟩).1 = safeUpd ∧
    (applyUpdate ⟨"Hello", "French", none, none, none, none⟩
        (content_safety_check_node
          ⟨"Hello", "French", none, none, none, none⟩
          ⟨Except.error "network down", Except.ok ⟨none, none, none, none, none⟩⟩).1).is_safe
      = some true ∧
    (applyUpdate ⟨"Hello", "French", none, none, none, none⟩
        (content_safety_check_node
          ⟨"Hello", "French", none, none, none, none⟩
          ⟨Except.error "network down", Except.ok ⟨none, none, none, none, none⟩⟩).1).error_message
      = none ∧
    nextNode GraphNode.content_safety_check
        (applyUpdate ⟨"Hello", "French", none, none, none, none⟩
          (content_safety_check_node
            ⟨"Hello", "French", none, none, none, none⟩
            ⟨Except.error "network down", Except.ok ⟨none, none, none, none, none⟩⟩).1)
      = GraphNode.translate_text :=
  C2_fail_open ⟨"Hello", "French", none, none, none, none⟩
    ⟨Except.error "network down", Except.ok ⟨none, none, none, none, none⟩⟩
    (by decide) (Or.inl ⟨"network down", rfl⟩)

/-- C4: For every input whose original_text is empty the safety stage
produces is_safe=false and a non-empty error_message, makes no call to the
moderation provider (empty call trace), and the run then ends at the
safety gate without invoking the translation stage. -/
theorem C4_empty_input (s : TranslationState) (env : SafetyEnv)
    (h : s.original_text = "") :
    content_safety_check_node s env = (missingInputUpd, []) ∧
    (applyUpdate s missingInputUpd).is_safe = some false ∧
    (applyUpdate s missingInputUpd).error_message =
      some "Input text is missing for content safety check." ∧
    "Input text is missing for content safety check." ≠ "" ∧
    nextNode GraphNode.content_safety_check (applyUpdate s missingInputUpd) =
      GraphNode.graphEnd := by
  refine ⟨?_, rfl, rfl, by decide, ?_⟩
  · unfold content_safety_check_node
    simp [h]
  · simp [nextNode, should_translate, applyUpdate, missingInputUpd, truthyOptBool]

/-- Witness for C4 at a concrete input: empty text with a reachable,
all-clear provider (which is nevertheless not called). -/
theorem C4_empty_input_witness :
    content_safety_check_node ⟨"", "French", none, none, none, none⟩
        ⟨Except.ok (), Except.ok ⟨none, none, none, none, none⟩⟩ = (missingInputUpd, []) ∧
    (applyUpdate ⟨"", "French", none, none, none, none⟩ missingInputUpd).is_safe = some false ∧
    (applyUpdate ⟨"", "French", none, none, none, none⟩ missingInputUpd).error_message =
      some "Input text is missing for content safety check." ∧
    "Input text is missing for content safety check." ≠ "" ∧
    nextNode GraphNode.content_safety_check
        (applyUpdate ⟨"", "French", none, none, none, none⟩ missingInputUpd) =
      GraphNode.graphEnd :=
  C4_empty_input ⟨"", "French", none, none, none, none⟩
    ⟨Except.ok (), Except.ok ⟨none, none, none, none, none⟩⟩ rfl

/-- C6: When the provider is reachable and returns a category-severity
list (the normalized moderation contract: `categories_analysis` present,
no direct attributes), the safety stage returns the unsafe update
(is_safe=false, error_message set) iff some category has severity
strictly greater than 0, and the safe update (is_safe=true, no error)
iff no category does. -/
theorem C6_severity_gate (s : TranslationState) (env : SafetyEnv)
    (cats : List CategoryAnalysis)
    (hne : s.original_text ≠ "")
    (hok : env.clientInit = Except.ok ())
    (hres : env.analyzeResult = Except.ok ⟨some cats, none, none, none, none⟩) :
    ((content_safety_check_node s env).1 = unsafeUpd ↔
      ∃ c ∈ cats, 0 < c.severity.getD 0) ∧
    ((content_safety_check_node s env).1 = safeUpd ↔
      ¬ ∃ c ∈ cats, 0 < c.severity.getD 0) := by
  have hA : analysisUnsafe ⟨some cats, none, none, none, none⟩ = cats.any categoryUnsafe := by
    cases cats <;> simp [analysisUnsafe, directUnsafe]
  have hiff : cats.any categoryUnsafe = true ↔ ∃ c ∈ cats, 0 < c.severity.getD 0 := by
    simp [List.any_eq_true, categoryUnsafe]
  have hval : (content_safety_check_node s env).1 =
      (if cats.any categoryUnsafe then unsafeUpd else safeUpd) := by
    unfold content_safety_check_node
    rw [if_neg hne, hok, hres]
    show (if analysisUnsafe ⟨some cats, none, none, none, none⟩ then
        (unsafeUpd, [SafetyCall.initClient, SafetyCall.analyze])
      else (safeUpd, [SafetyCall.initClient, SafetyCall.analyze])).1 = _
    rw [hA]
    cases cats.any categoryUnsafe <;> rfl
  rw [hval]
  cases hany : cats.any categoryUnsafe with
  | true =>
    simp only [if_pos rfl, if_true]
    constructor
    · simp [hiff.1 hany]
    · rw [iff_iff_implies_and_implies]
      constructor
      · intro hcontra
        exact absurd hcontra (by decide)
      · intro hno
        exact absurd (hiff.1 hany) hno
  | false =>
    have hno : ¬ ∃ c ∈ cats, 0 < c.severity.getD 0 := by
      intro hex
      rw [← hiff] at hex
      rw [hany] at hex
      cases hex
    simp only [Bool.false_eq_true, if_false]
    constructor
    · rw [iff_iff_implies_and_implies]
      constructor
      · intro hcontra
        exact absurd hcontra (by decide)
      · intro hex
        exact absurd hex hno
    · simp [hno]

/-- Witness for C6 at a concrete input: one category of severity 4 is
flagged unsafe. -/
theorem C6_severity_gate_witness :
    ((content_safety_check_node ⟨"some text", "French", none, none, none, none⟩
        ⟨Except.ok (),
          Except.ok ⟨some [⟨some "Hate", some 4⟩], none, none, none, none⟩⟩).1 = unsafeUpd ↔
      ∃ c ∈ [(⟨some "Hate", some 4⟩ : CategoryAnalysis)], 0 < c.severity.getD 0) ∧
    ((content_safety_check_node ⟨"some text", "French", none, none, none, none⟩
        ⟨Except.ok (),
          Except.ok ⟨some [⟨some "Hate", some 4⟩], none, none, none, none⟩⟩).1 = safeUpd ↔
      ¬ ∃ c ∈ [(⟨some "Hate", some 4⟩ : CategoryAnalysis)], 0 < c.severity.getD 0) :=
  C6_severity_gate ⟨"some text", "French", none, none, none, none⟩
    ⟨Except.ok (), Except.ok ⟨some [⟨some "Hate", some 4⟩], none, none, none, none⟩⟩
    [⟨some "Hate", some 4⟩] (by decide) rfl rfl

/-- When every fragment is present and non-empty, the yielded updates are
exactly the running concatenations wrapped as translated-text updates. -/
theorem streamYields_all_content (frags : List String) (acc : String)
    (h : ∀ f ∈ frags, f ≠ "") :
    streamYields (frags.map some) acc = (prefixStrings frags acc).map translatedUpd := by
  induction frags generalizing acc with
  | nil => rfl
  | cons f fs ih =>
    have hf : f ≠ "" := h f (List.mem_cons_self f fs)
    simp only [List.map_cons, streamYields, contentPiece, if_neg hf, prefixStrings]
    rw [ih (acc ++ f) fun g hg => h g (List.mem_cons_of_mem f hg)]

/-- When every fragment is present and non-empty, the accumulated text is
the starting accumulator followed by the concatenation of all fragments. -/
theorem streamAccum_all_content (frags : List String) (acc : String)
    (h : ∀ f ∈ frags, f ≠ "") :
    streamAccum (frags.map some) acc = acc ++ concatFrags frags := by
  induction frags generalizing acc with
  | nil => simp [streamAccum, concatFrags, String.append_empty]
  | cons f fs ih =>
    have hf : f ≠ "" := h f (List.mem_cons_self f fs)
    simp only [List.map_cons, streamAccum, contentPiece, if_neg hf, concatFrags]
    rw [ih (acc ++ f) fun g hg => h g (List.mem_cons_of_mem f hg), String.append_assoc]

/-- The first running concatenation extends the accumulator it starts
from. -/
theorem prefixStrings_head_ext (fs : List String) (acc : String) :
    ∀ b ∈ (prefixStrings fs acc).head?, ∃ t, b = acc ++ t := by
  cases fs with
  | nil =>
    intro b hb
    simp [prefixStrings] at hb
  | cons g gs =>
    intro b hb
    simp only [prefixStrings, List.head?_cons, Option.mem_def, Option.some_inj] at hb
    exact ⟨g, hb.symm⟩

/-- The running concatenations form a chain in which each element is a
prefix-extension of the previous one. -/
theorem prefixStrings_chain (fs : List String) (acc : String) :
    List.Chain' (fun a b => ∃ t, b = a ++ t) (prefixStrings fs acc) := by
  induction fs generalizing acc with
  | nil => simp [prefixStrings]
  | cons f fs ih =>
    rw [prefixStrings, List.chain'_cons']
    exact ⟨prefixStrings_head_ext fs (acc ++ f), ih (acc ++ f)⟩

/-- A stream with no contributing chunk yields nothing. -/
theorem streamYields_no_content (cs : List (Option String)) (acc : String)
    (h : ∀ c ∈ cs, contentPiece c = none) : streamYields cs acc = [] := by
  induction cs generalizing acc with
  | nil => rfl
  | cons c cs ih =>
    have hc : contentPiece c = none := h c (List.mem_cons_self c cs)
    simp only [streamYields, hc]
    exact ih acc fun d hd => h d (List.mem_cons_of_mem c hd)

/-- A stream with no contributing chunk leaves the accumulator unchanged. -/
theorem streamAccum_no_content (cs : List (Option String)) (acc : String)
    (h : ∀ c ∈ cs, contentPiece c = none) : streamAccum cs acc = acc := by
  induction cs generalizing acc with
  | nil => rfl
  | cons c cs ih =>
    have hc : contentPiece c = none := h c (List.mem_cons_self c cs)
    simp only [streamAccum, hc]
    exact ih acc fun d hd => h d (List.mem_cons_of_mem c hd)

/-- C5: Streaming monotonicity: for every finite sequence of non-empty
content fragments, the intermediate updates emitted by the translation
stage carry exactly the running concatenations (each one a
prefix-extension of the previous one), and the closing update carries the
in-order concatenation of all fragments with error_message=None. -/
theorem C5_streaming_monotonicity (s : TranslationState) (env : TranslateEnv)
    (frags : List String)
    (ho : s.original_text ≠ "") (hl : s.target_language ≠ "")
    (hci : env.clientInit = Except.ok ())
    (hch : env.chunks = frags.map some)
    (hfr : ∀ f ∈ frags, f ≠ "")
    (hend : env.streamEnd = StreamEnd.completed) :
    (translate_text_node s env).1 = (prefixStrings frags "").map translatedUpd ∧
    ((translate_text_node s env).1.map fun u => (u.translated_text.getD none).getD "") =
      prefixStrings frags "" ∧
    List.Chain' (fun a b => ∃ t, b = a ++ t)
      ((translate_text_node s env).1.map fun u => (u.translated_text.getD none).getD "") ∧
    (translate_text_node s env).2 = translateDoneUpd (concatFrags frags) := by
  have hnode : translate_text_node s env =
      (streamYields (frags.map some) "", translateDoneUpd (streamAccum (frags.map some) "")) := by
    unfold translate_text_node
    rw [if_neg (not_or.mpr ⟨ho, hl⟩), hci, hend, hch]
  have h1 : streamYields (frags.map some) "" = (prefixStrings frags "").map translatedUpd :=
    streamYields_all_content frags "" hfr
  have h2 : streamAccum (frags.map some) "" = concatFrags frags := by
    rw [streamAccum_all_content frags "" hfr, String.empty_append]
  have hx : ((prefixStrings frags "").map translatedUpd).map
      (fun u => (u.translated_text.getD none).getD "") = prefixStrings frags "" := by
    rw [List.map_map]
    have : ((fun u : StateUpdate => (u.translated_text.getD none).getD "") ∘ translatedUpd) =
        id := by
      funext t
      simp [translatedUpd, Function.comp]
    rw [this, List.map_id]
  rw [hnode]
  refine ⟨h1, ?_, ?_, by rw [h2]⟩
  · simpa [h1] using hx
  · rw [h1, hx]
    exact prefixStrings_chain frags ""

/-- Witness for C5 at a concrete input: two fragments. -/
theorem C5_streaming_monotonicity_witness :
    (translate_text_node ⟨"Hello world", "Spanish", some "", none, none, some true⟩
        ⟨Except.ok (), [some "Hola", some " mundo"], StreamEnd.completed⟩).1 =
      (prefixStrings ["Hola", " mundo"] "").map translatedUpd ∧
    ((translate_text_node ⟨"Hello world", "Spanish", some "", none, none, some true⟩
        ⟨Except.ok (), [some "Hola", some " mundo"], StreamEnd.completed⟩).1.map
          fun u => (u.translated_text.getD none).getD "") =
      prefixStrings ["Hola", " mundo"] "" ∧
    List.Chain' (fun a b => ∃ t, b = a ++ t)
      ((translate_text_node ⟨"Hello world", "Spanish", some "", none, none, some true⟩
        ⟨Except.ok (), [some "Hola", some " mundo"], StreamEnd.completed⟩).1.map
          fun u => (u.translated_text.getD none).getD "") ∧
    (translate_text_node ⟨"Hello world", "Spanish", some "", none, none, some true⟩
        ⟨Except.ok (), [some "Hola", some " mundo"], StreamEnd.completed⟩).2 =
      translateDoneUpd (concatFrags ["Hola", " mundo"]) :=
  C5_streaming_monotonicity ⟨"Hello world", "Spanish", some "", none, none, some true⟩
    ⟨Except.ok (), [some "Hola", some " mundo"], StreamEnd.completed⟩
    ["Hola", " mundo"] (by decide) (by decide) rfl rfl (by decide) rfl

/-- C10: If the stream completes without delivering any contributing
fragment, the translation stage yields nothing, closes with
translated_text = "" and error_message = None, and the translation gate
then routes to END, leaving the merged state with no audio and no error. -/
theorem C10_empty_stream (s : TranslationState) (env : TranslateEnv)
    (ho : s.original_text ≠ "") (hl : s.target_language ≠ "")
    (hci : env.clientInit = Except.ok ())
    (hch : ∀ c ∈ env.chunks, contentPiece c = none)
    (hend : env.streamEnd = StreamEnd.completed)
    (haud : s.audio_bytes = none) :
    (translate_text_node s env).1 = [] ∧
    (translate_text_node s env).2 = translateDoneUpd "" ∧
    (applyUpdate s (translate_text_node s env).2).translated_text = some "" ∧
    (applyUpdate s (translate_text_node s env).2).error_message = none ∧
    (applyUpdate s (translate_text_node s env).2).audio_bytes = none ∧
    nextNode GraphNode.translate_text (applyUpdate s (translate_text_node s env).2) =
      GraphNode.graphEnd := by
  have hnode : translate_text_node s env =
      (streamYields env.chunks "", translateDoneUpd (streamAccum env.chunks "")) := by
    unfold translate_text_node
    rw [if_neg (not_or.mpr ⟨ho, hl⟩), hci, hend]
  have hy : streamYields env.chunks "" = [] := streamYields_no_content env.chunks "" hch
  have ha : streamAccum env.chunks "" = "" := streamAccum_no_content env.chunks "" hch
  rw [hnode, hy, ha]
  refine ⟨rfl, rfl, rfl, rfl, by simp [applyUpdate, translateDoneUpd, haud], ?_⟩
  simp [nextNode, should_synthesize_speech, applyUpdate, translateDoneUpd, truthyOptStr]

/-- Witness for C10 at a concrete input: a stream of one contentless
chunk and one empty-content chunk. -/
theorem C10_empty_stream_witness :
    (translate_text_node ⟨"Hello", "German", some "", none, none, some true⟩
        ⟨Except.ok (), [none, some ""], StreamEnd.completed⟩).1 = [] ∧
    (translate_text_node ⟨"Hello", "German", some "", none, none, some true⟩
        ⟨Except.ok (), [none, some ""], StreamEnd.completed⟩).2 = translateDoneUpd "" ∧
    (applyUpdate ⟨"Hello", "German", some "", none, none, some true⟩
        (translate_text_node ⟨"Hello", "German", some "", none, none, some true⟩
          ⟨Except.ok (), [none, some ""], StreamEnd.completed⟩).2).translated_text = some "" ∧
    (applyUpdate ⟨"Hello", "German", some "", none, none, some true⟩
        (translate_text_node ⟨"Hello", "German", some "", none, none, some true⟩
          ⟨Except.ok (), [none, some ""], StreamEnd.completed⟩).2).error_message = none ∧
    (applyUpdate ⟨"Hello", "German", some "", none, none, some true⟩
        (translate_text_node ⟨"Hello", "German", some "", none, none, some true⟩
          ⟨Except.ok (), [none, some ""], StreamEnd.completed⟩).2).audio_bytes = none ∧
    nextNode GraphNode.translate_text
        (applyUpdate ⟨"Hello", "German", some "", none, none, some true⟩
          (translate_text_node ⟨"Hello", "German", some "", none, none, some true⟩
            ⟨Except.ok (), [none, some ""], StreamEnd.completed⟩).2) =
      GraphNode.graphEnd :=
  C10_empty_stream ⟨"Hello", "German", some "", none, none, some true⟩
    ⟨Except.ok (), [none, some ""], StreamEnd.completed⟩
    (by decide) (by decide) rfl (by decide) rfl rfl

/-- C3: Evaluation of the code at the failing input: a fresh run (entry
translated_text = ""), the stream raising after delivering "Bonjour".
The node yields the partial update "Bonjour", but its closing error
update carries the ENTRY state's translated_text (the empty string), so
the merged final state has translated_text = "" — the accumulated partial
text "Bonjour" is NOT preserved, contradicting the claim (and the code's
own comment "Keep what was translated so far or empty" at line 145).
error_message is set, audio stays unset and the gate ends the run, as
the claim says. -/
theorem C3_partial_text_dropped :
    (translate_text_node ⟨"Hello, friend", "French", some "", none, none, some true⟩
        ⟨Except.ok (), [some "Bonjour"], StreamEnd.raised "connection reset"⟩).1 =
      [translatedUpd "Bonjour"] ∧
    (translate_text_node ⟨"Hello, friend", "French", some "", none, none, some true⟩
        ⟨Except.ok (), [some "Bonjour"], StreamEnd.raised "connection reset"⟩).2 =
      translateErrUpd "Translation failed: connection reset" "" ∧
    (applyUpdate
        (applyUpdate ⟨"Hello, friend", "French", some "", none, none, some true⟩
          (translatedUpd "Bonjour"))
        (translate_text_node ⟨"Hello, friend", "French", some "", none, none, some true⟩
          ⟨Except.ok (), [some "Bonjour"], StreamEnd.raised "connection reset"⟩).2).translated_text
      = some "" ∧
    (applyUpdate
        (applyUpdate ⟨"Hello, friend", "French", some "", none, none, some true⟩
          (translatedUpd "Bonjour"))
        (translate_text_node ⟨"Hello, friend", "French", some "", none, none, some true⟩
          ⟨Except.ok (), [some "Bonjour"], StreamEnd.raised "connection reset"⟩).2).translated_text
      ≠ some "Bonjour" ∧
    (applyUpdate
        (applyUpdate ⟨"Hello, friend", "French", some "", none, none, some true⟩
          (translatedUpd "Bonjour"))
        (translate_text_node ⟨"Hello, friend", "French", some "", none, none, some true⟩
          ⟨Except.ok (), [some "Bonjour"], StreamEnd.raised "connection reset"⟩).2).error_message
      = some "Translation failed: connection reset" ∧
    (applyUpdate
        (applyUpdate ⟨"Hello, friend", "French", some "", none, none, some true⟩
          (translatedUpd "Bonjour"))
        (translate_text_node ⟨"Hello, friend", "French", some "", none, none, some true⟩
          ⟨Except.ok (), [some "Bonjour"], StreamEnd.raised "connection reset"⟩).2).audio_bytes
      = none ∧
    nextNode GraphNode.translate_text
        (applyUpdate
          (applyUpdate ⟨"Hello, friend", "French", some "", none, none, some true⟩
            (translatedUpd "Bonjour"))
          (translate_text_node ⟨"Hello, friend", "French", some "", none, none, some true⟩
            ⟨Except.ok (), [some "Bonjour"], StreamEnd.raised "connection reset"⟩).2) =
      GraphNode.graphEnd := by
  refine ⟨rfl, rfl, rfl, by decide, rfl, rfl, rfl⟩

/-- The unsupported-language message starts with the letter L, whatever
the language name is. -/
theorem unsupportedMsg_head (lang : String) :
    (unsupportedLanguageMsg lang).data.head? = some 'L' := by
  have hL : "Language ".data = 'L' :: "anguage ".data := rfl
  simp only [unsupportedLanguageMsg, String.data_append, List.append_assoc, hL,
    List.cons_append, List.head?_cons]

/-- The unsupported-language message differs from the missing-text
message for every language name. -/
theorem unsupportedMsg_ne_missing_text (lang : String) :
    unsupportedLanguageMsg lang ≠ "Translated text is missing for speech synthesis." := by
  intro h
  have h2 : (unsupportedLanguageMsg lang).data.head? =
      ("Translated text is missing for speech synthesis." : String).data.head? := by rw [h]
  rw [unsupportedMsg_head] at h2
  exact absurd h2 (by decide)

/-- The unsupported-language message differs from the missing-language
message for every language name. -/
theorem unsupportedMsg_ne_missing_language (lang : String) :
    unsupportedLanguageMsg lang ≠ "Target language is missing for speech synthesis." := by
  intro h
  have h2 : (unsupportedLanguageMsg lang).data.head? =
      ("Target language is missing for speech synthesis." : String).data.head? := by rw [h]
  rw [unsupportedMsg_head] at h2
  exact absurd h2 (by decide)

/-- C7: With preconditions satisfied and setup succeeding, the synthesis
stage maps the provider's three completion outcomes to three distinct
transitions: completed sets audio_bytes with no error; canceled sets an
error describing the cancellation (with the provider's error detail
appended exactly when the cancellation reason is the internal error
reason) and clears audio; any other completion reason sets an error
containing the literal reason value and clears audio. -/
theorem C7_synthesis_outcomes (s : TranslationState) (env : SpeechEnv) (r : SpeechResultM)
    (ht : truthyOptStr s.translated_text = true)
    (hsup : isSupportedLanguage s.target_language = true)
    (hcfg : env.speechConfig = Except.ok ())
    (hca : env.speechConfigAvailable = true)
    (hsa : env.synthesizerAvailable = true)
    (hr : env.speakResult = Except.ok r) :
    (r.reason = ResultReasonM.synthesizingAudioCompleted →
      (text_to_speech_node s env).1 = ttsDoneUpd r.audio_data) ∧
    (r.reason = ResultReasonM.canceled →
      (text_to_speech_node s env).1 = ttsErrAudioUpd (canceledMsg r.cancellation_details)) ∧
    (∀ tag, r.reason = ResultReasonM.otherReason tag →
      (text_to_speech_node s env).1 =
        ttsErrAudioUpd ("Speech synthesis failed with unexpected reason: " ++ tag)) ∧
    (∀ d : CancellationDetailsM, d.reason = CancellationReasonM.cancellationError →
      canceledMsg d = "Speech synthesis canceled: " ++ cancellationReasonText d.reason ++
        " - Error details: " ++ d.error_details) ∧
    (∀ (d : CancellationDetailsM) (tag : String),
      d.reason = CancellationReasonM.cancellationOther tag →
      canceledMsg d = "Speech synthesis canceled: " ++ cancellationReasonText d.reason) := by
  obtain ⟨rr, rad, rcd⟩ := r
  have hne : ¬ s.target_language = "" := by
    intro h
    rw [h] at hsup
    exact absurd hsup (by decide)
  have hnode : (text_to_speech_node s env).1 =
      (match rr with
        | ResultReasonM.synthesizingAudioCompleted => ttsDoneUpd rad
        | ResultReasonM.canceled => ttsErrAudioUpd (canceledMsg rcd)
        | ResultReasonM.otherReason tag =>
          ttsErrAudioUpd ("Speech synthesis failed with unexpected reason: " ++ tag)) := by
    unfold text_to_speech_node
    rw [ht, hsup, if_neg hne, hcfg, hca, hsa]
    cases rr <;> simp only [hr] <;> rfl
  refine ⟨?_, ?_, ?_, ?_, ?_⟩
  · intro h
    cases h
    rw [hnode]
  · intro h
    cases h
    rw [hnode]
  · intro tag h
    cases h
    rw [hnode]
  · intro d hd
    obtain ⟨dr, de⟩ := d
    cases hd
    rfl
  · intro d tag hd
    obtain ⟨dr, de⟩ := d
    cases hd
    rfl

/-- Witness for C7 at a concrete input: a completed synthesis returning
three bytes. -/
theorem C7_synthesis_outcomes_witness :
    ((⟨ResultReasonM.synthesizingAudioCompleted, [1, 2, 3],
        ⟨CancellationReasonM.cancellationOther "CancellationReason.EndOfStream", ""⟩⟩ :
          SpeechResultM).reason = ResultReasonM.synthesizingAudioCompleted →
      (text_to_speech_node ⟨"Hi", "French", some "Bonjour", none, none, some true⟩
          ⟨Except.ok (), true, true,
            Except.ok ⟨ResultReasonM.synthesizingAudioCompleted, [1, 2, 3],
              ⟨CancellationReasonM.cancellationOther "CancellationReason.EndOfStream", ""⟩⟩⟩).1 =
        ttsDoneUpd (⟨ResultReasonM.synthesizingAudioCompleted, [1, 2, 3],
          ⟨CancellationReasonM.cancellationOther "CancellationReason.EndOfStream", ""⟩⟩ :
            SpeechResultM).audio_data) ∧
    ((⟨ResultReasonM.synthesizingAudioCompleted, [1, 2, 3],
        ⟨CancellationReasonM.cancellationOther "CancellationReason.EndOfStream", ""⟩⟩ :
          SpeechResultM).reason = ResultReasonM.canceled →
      (text_to_speech_node ⟨"Hi", "French", some "Bonjour", none, none, some true⟩
          ⟨Except.ok (), true, true,
            Except.ok ⟨ResultReasonM.synthesizingAudioCompleted, [1, 2, 3],
              ⟨CancellationReasonM.cancellationOther "CancellationReason.EndOfStream", ""⟩⟩⟩).1 =
        ttsErrAudioUpd (canceledMsg (⟨ResultReasonM.synthesizingAudioCompleted, [1, 2, 3],
          ⟨CancellationReasonM.cancellationOther "CancellationReason.EndOfStream", ""⟩⟩ :
            SpeechResultM).cancellation_details)) ∧
    (∀ tag, (⟨ResultReasonM.synthesizingAudioCompleted, [1, 2, 3],
        ⟨CancellationReasonM.cancellationOther "CancellationReason.EndOfStream", ""⟩⟩ :
          SpeechResultM).reason = ResultReasonM.otherReason tag →
      (text_to_speech_node ⟨"Hi", "French", some "Bonjour", none, none, some true⟩
          ⟨Except.ok (), true, true,
            Except.ok ⟨ResultReasonM.synthesizingAudioCompleted, [1, 2, 3],
              ⟨CancellationReasonM.cancellationOther "CancellationReason.EndOfStream", ""⟩⟩⟩).1 =
        ttsErrAudioUpd ("Speech synthesis failed with unexpected reason: " ++ tag)) ∧
    (∀ d : CancellationDetailsM, d.reason = CancellationReasonM.cancellationError →
      canceledMsg d = "Speech synthesis canceled: " ++ cancellationReasonText d.reason ++
        " - Error details: " ++ d.error_details) ∧
    (∀ (d : CancellationDetailsM) (tag : String),
      d.reason = CancellationReasonM.cancellationOther tag →
      canceledMsg d = "Speech synthesis canceled: " ++ cancellationReasonText d.reason) :=
  C7_synthesis_outcomes ⟨"Hi", "French", some "Bonjour", none, none, some true⟩
    ⟨Except.ok (), true, true,
      Except.ok ⟨ResultReasonM.synthesizingAudioCompleted, [1, 2, 3],
        ⟨CancellationReasonM.cancellationOther "CancellationReason.EndOfStream", ""⟩⟩⟩
    ⟨ResultReasonM.synthesizingAudioCompleted, [1, 2, 3],
      ⟨CancellationReasonM.cancellationOther "CancellationReason.EndOfStream", ""⟩⟩
    (by decide) (by decide) rfl rfl rfl rfl

/-- C8: The synthesis stage performs three precondition checks before any
provider call, each with its own error message: missing/empty
translated_text; empty target_language; target_language not in the
supported-language table.  In each case the node returns the
corresponding error with an empty provider-call trace, and the three
messages are pairwise distinct. -/
theorem C8_tts_preconditions (s : TranslationState) (env : SpeechEnv) :
    (truthyOptStr s.translated_text = false →
      text_to_speech_node s env =
        (ttsErrUpd "Translated text is missing for speech synthesis.", [])) ∧
    (truthyOptStr s.translated_text = true → s.target_language = "" →
      text_to_speech_node s env =
        (ttsErrUpd "Target language is missing for speech synthesis.", [])) ∧
    (truthyOptStr s.translated_text = true → s.target_language ≠ "" →
      isSupportedLanguage s.target_language = false →
      text_to_speech_node s env =
        (ttsErrUpd (unsupportedLanguageMsg s.target_language), [])) ∧
    ("Translated text is missing for speech synthesis." ≠
      "Target language is missing for speech synthesis.") ∧
    unsupportedLanguageMsg s.target_language ≠
      "Translated text is missing for speech synthesis." ∧
    unsupportedLanguageMsg s.target_language ≠
      "Target language is missing for speech synthesis." := by
  refine ⟨?_, ?_, ?_, by decide,
    unsupportedMsg_ne_missing_text s.target_language,
    unsupportedMsg_ne_missing_language s.target_language⟩
  · intro h
    unfold text_to_speech_node
    rw [h]
    rfl
  · intro h1 h2
    unfold text_to_speech_node
    rw [h1, h2]
    rfl
  · intro h1 h2 h3
    unfold text_to_speech_node
    rw [h1, h3, if_neg h2]
    rfl

/-- Witness for C8 at a concrete input: translated text present but the
target language "Klingon" is not in the table. -/
theorem C8_tts_preconditions_witness :
    text_to_speech_node ⟨"Hi", "Klingon", some "Bonjour", none, none, some true⟩
        ⟨Except.ok (), true, true,
          Except.ok ⟨ResultReasonM.synthesizingAudioCompleted, [],
            ⟨CancellationReasonM.cancellationOther "", ""⟩⟩⟩ =
      (ttsErrUpd (unsupportedLanguageMsg "Klingon"), []) :=
  (C8_tts_preconditions ⟨"Hi", "Klingon", some "Bonjour", none, none, some true⟩
      ⟨Except.ok (), true, true,
        Except.ok ⟨ResultReasonM.synthesizingAudioCompleted, [],
          ⟨CancellationReasonM.cancellationOther "", ""⟩⟩⟩).2.2.1
    (by decide) (by decide) (by decide)

/-- C9: No exception escapes a stage: for every input state and every
provider behavior, including raising providers, each stage function
returns an outcome record whose decisive keys are present — the safety
node always sets both is_safe and error_message, the translation node's
closing update always sets both translated_text and error_message, and
the synthesis node always sets error_message (to a message on failure, to
None on success) — so the transition rules decide the next step by plain
state inspection. -/
theorem C9_no_exception_escapes (s : TranslationState) (envS : SafetyEnv)
    (envT : TranslateEnv) (envP : SpeechEnv) :
    ((content_safety_check_node s envS).1.is_safe.isSome ∧
      (content_safety_check_node s envS).1.error_message.isSome) ∧
    ((translate_text_node s envT).2.translated_text.isSome ∧
      (translate_text_node s envT).2.error_message.isSome) ∧
    (text_to_speech_node s envP).1.error_message.isSome := by
  refine ⟨?_, ?_, ?_⟩
  · unfold content_safety_check_node
    repeat' split
    all_goals simp [safeUpd, unsafeUpd, missingInputUpd]
  · unfold translate_text_node
    repeat' split
    all_goals simp [translateErrUpd, translateDoneUpd]
  · unfold text_to_speech_node
    repeat' split
    all_goals simp [ttsErrUpd, ttsErrAudioUpd, ttsDoneUpd]

end LangApp
